import Mathlib

/-!
Verification of the audio session controller in `src/main.py`
(`WhisperTranscriber`).  The Python code is shallowly embedded: audio
samples are rationals (the code uses floating-point samples in [-1,1];
none of the verified properties depend on rounding), state-bearing
methods become explicit state-passing functions, GUI/clipboard/engine
side effects become an explicit event trace, and exceptions become
`Except` values or explicit raise flags.
-/

/-- Observable side effects of the controller and pipeline: status-label
updates (`_update_status text color`), log appends
(`_append_to_display text tag`), clipboard publishes (`pyperclip.copy`),
Whisper model loads (`whisper.load_model`), engine transcription calls
(`model.transcribe`), and deferred status resets (`root.after delay`). -/
inductive Event
  | statusChanged (text color : String)
  | logAppended (text tag : String)
  | clipboardCopy (text : String)
  | modelLoad (name : String)
  | engineTranscribe (samples : List ℚ) (model : String) (lang : Option String)
  | scheduleReset (delayMs : Nat)
  deriving DecidableEq

/-- `TranscriberConfig` (src/main.py lines 36-47), restricted to the fields
the verified code paths read.  `sample_rate` is an `int` in the source;
it is embedded as a rational so `duration = len(audio) / sample_rate`
is exact. -/
structure TranscriberConfig where
  sample_rate : ℚ := 16000
  default_model : String := "base"
  default_language : String := "Autodetect"
  test_duration : Nat := 5
  min_recording_duration : ℚ := 1/2
  silence_threshold : ℚ := 1/1000
  deriving DecidableEq

/-- A live sounddevice `InputStream` handle.  Only the `active` flag is
observable to `_cleanup_audio_streams`. -/
structure StreamHandle where
  active : Bool
  deriving DecidableEq

/-- `TranscriberState` (src/main.py lines 50-68): the public flags plus the
private runtime state.  Stream objects are embedded as optional handles
(`None` in Python becomes `none`); audio chunks are lists of samples. -/
structure TranscriberState where
  is_listening : Bool := false
  is_testing_audio : Bool := false
  current_device_index : Option Nat := none
  selected_model : String := "base"
  selected_language : String := "Autodetect"
  recording_data : List (List ℚ) := []
  recording_stream : Option StreamHandle := none
  test_stream : Option StreamHandle := none
  deriving DecidableEq

/-- `TranscriberState.is_audio_busy` (src/main.py lines 65-68). -/
def TranscriberState.is_audio_busy (s : TranscriberState) : Bool :=
  s.is_listening || s.is_testing_audio

/-- `np.abs` applied elementwise. -/
def np_abs (a : List ℚ) : List ℚ := a.map (fun x => |x|)

/-- `np.max`: raises `ValueError` on a zero-size array, otherwise the
maximum element. -/
def np_max : List ℚ → Except String ℚ
  | [] => Except.error "zero-size array to reduction operation maximum which has no identity"
  | x :: xs => Except.ok (xs.foldl max x)

/-- Peak absolute amplitude of a sample array; agrees with
`np.max(np.abs(audio))` on nonempty arrays (see `np_max_np_abs`). -/
def peak_abs (a : List ℚ) : ℚ := (np_abs a).foldl max 0

/-- Python truthiness of the `lang_code` value (`None` and the empty
string are falsy). -/
def py_truthy : Option String → Bool
  | none => false
  | some s => !s.isEmpty

/-- Python's `str.strip()`: drop whitespace from both ends of the
string. -/
def py_strip (s : String) : String :=
  String.mk
    (((s.data.dropWhile Char.isWhitespace).reverse.dropWhile
      Char.isWhitespace).reverse)

/-- The language argument passed to the engine (src/main.py lines 578-590):
look up `lang_var` in the languages dict, then call `transcribe` with
`language=lang_code` only when `lang_code` is truthy. -/
def lang_argument (languages : String → Option String) (lang_sel : String) :
    Option String :=
  let lang_code := languages lang_sel
  if py_truthy lang_code then lang_code else none

/-- Stream-API calls and logged errors made by `_cleanup_audio_streams`. -/
inductive CleanupAct
  | stopCall
  | closeCall
  | logError
  deriving DecidableEq

/-- One `try` block of `_cleanup_audio_streams` (src/main.py lines 357-364),
acting on one stream slot.  `stop_raises` / `close_raises` say whether the
`stream.stop()` / `stream.close()` call raises; a raise skips the rest of
the block (in particular the `stream = None` assignment) and is logged by
the `except` handler instead of propagating.  The `hasattr(stream,
"active")` test is always true for real stream objects and is dropped. -/
def cleanup_stream_slot (stop_raises close_raises : Bool) :
    Option StreamHandle → Option StreamHandle × List CleanupAct
  | none => (none, [])
  | some h =>
    if h.active then
      if stop_raises then
        (some h, [CleanupAct.stopCall, CleanupAct.logError])
      else if close_raises then
        (some { h with active := false },
         [CleanupAct.stopCall, CleanupAct.closeCall, CleanupAct.logError])
      else
        (none, [CleanupAct.stopCall, CleanupAct.closeCall])
    else
      (none, [])

/-- `_cleanup_audio_streams` (src/main.py lines 355-373): clean the
recording slot, then the test slot, each in its own `try`/`except`. -/
def cleanup_audio_streams (stop_r close_r stop_t close_t : Bool)
    (s : TranscriberState) : TranscriberState × List CleanupAct :=
  let r := cleanup_stream_slot stop_r close_r s.recording_stream
  let t := cleanup_stream_slot stop_t close_t s.test_stream
  ({ s with recording_stream := r.1, test_stream := t.1 }, r.2 ++ t.2)

/-- Repeated calls to one slot's cleanup block, with per-call raise flags. -/
def cleanup_calls : List (Bool × Bool) → Option StreamHandle →
    Option StreamHandle × List CleanupAct
  | [], s => (s, [])
  | f :: rest, s =>
    let r1 := cleanup_stream_slot f.1 f.2 s
    let r2 := cleanup_calls rest r1.1
    (r2.1, r1.2 ++ r2.2)

/-- `_transcribe_audio` (src/main.py lines 537-616), run in a worker thread
after `_stop_recording`.  The event trace records every observable action
in program order.  `lang_sel` / `model_sel` are the combobox values the
worker reads at lines 578-583; `ts` stands for `time.strftime("%H:%M:%S")`;
`languages` is the `self._languages` dict (`dict.get` returns `None` both
for "Autodetect" and for a missing key, so both map to `none`);
`load_model` and `engine` are the Whisper collaborators, returning
`Except.error msg` when they raise.  The RMS figure of the stats line is
display-only (an irrational square root) and is elided from the embedded
stats text; the silence hint string drops the source's quotation marks
around the button name.  The `finally` block always schedules a 5000 ms
status reset, also after an early `return`. -/
def transcribe_audio (cfg : TranscriberConfig) (recording_data : List (List ℚ))
    (lang_sel model_sel ts : String)
    (languages : String → Option String)
    (load_model : String → Except String Unit)
    (engine : List ℚ → String → Option String → Except String String) :
    List Event :=
  let body : List Event :=
    if recording_data = [] then
      [Event.statusChanged "No audio recorded" "red", Event.scheduleReset 2000]
    else
      let audio : List ℚ := recording_data.flatten
      let audio_duration : ℚ := (audio.length : ℚ) / cfg.sample_rate
      match np_max (np_abs audio) with
      | Except.error e =>
          [Event.statusChanged ("Error: " ++ e) "red",
           Event.logAppended ("\n[" ++ ts ++ "] Error: " ++ e ++ "\n") "error"]
      | Except.ok audio_max =>
          let stats := Event.logAppended
            ("Audio stats - Duration: " ++ toString audio_duration ++ "s, Max: " ++
              toString audio_max ++ "\n") "timestamp"
          if audio_duration < cfg.min_recording_duration then
            [stats, Event.statusChanged "Recording too short" "red",
             Event.scheduleReset 2000]
          else if audio_max < cfg.silence_threshold then
            [stats, Event.statusChanged "No audio detected - check microphone" "red",
             Event.logAppended "Try the Test Audio button to check your microphone levels.\n"
               "timestamp",
             Event.scheduleReset 3000]
          else
            let model_name := model_sel
            let lang_arg := lang_argument languages lang_sel
            [stats, Event.statusChanged "Loading model..." "orange",
             Event.modelLoad model_name] ++
            (match load_model model_name with
             | Except.error e =>
                 [Event.statusChanged ("Error: " ++ e) "red",
                  Event.logAppended ("\n[" ++ ts ++ "] Error: " ++ e ++ "\n") "error"]
             | Except.ok _ =>
                 [Event.statusChanged "Transcribing..." "orange",
                  Event.engineTranscribe audio model_name lang_arg] ++
                 (match engine audio model_name lang_arg with
                  | Except.error e =>
                      [Event.statusChanged ("Error: " ++ e) "red",
                       Event.logAppended ("\n[" ++ ts ++ "] Error: " ++ e ++ "\n") "error"]
                  | Except.ok raw =>
                      let transcribed_text := py_strip raw
                      if transcribed_text ≠ "" then
                        [Event.logAppended ("\n[" ++ ts ++ "] ") "timestamp",
                         Event.logAppended (transcribed_text ++ "\n") "transcription",
                         Event.clipboardCopy transcribed_text,
                         Event.statusChanged "Transcribed & copied to clipboard!" "green"]
                      else
                        [Event.statusChanged "No speech detected" "orange",
                         Event.logAppended ("\n[" ++ ts ++ "] No speech detected\n")
                           "timestamp"]))
  body ++ [Event.scheduleReset 5000]

/-- `_reset_status` (src/main.py lines 232-235): the deferred reset sets the
status label to "Idle" only when no audio operation is active. -/
def reset_status_text (s : TranscriberState) (cur : String) : String :=
  if s.is_audio_busy then cur else "Idle"

/-- The selection handoff as the code actually performs it:
`_stop_recording` (src/main.py lines 527-535) captures no model or
language value; it spawns the worker, and the worker itself reads
`lang_var` / `model_var` when it reaches src/main.py lines 578-583.
`lang_var` / `model_var` give the combobox contents as functions of time
(`_update_ui_state`, lines 237-260, never disables these two comboboxes,
so they can change while the pipeline is in flight); `t_read` is the
instant the worker executes the reads, which is strictly after
`toggle_recording` returned (the thread is only started at line 535). -/
def pipeline_run (cfg : TranscriberConfig) (recording_data : List (List ℚ))
    (lang_var model_var : Nat → String) (t_read : Nat) (ts : String)
    (languages : String → Option String)
    (load_model : String → Except String Unit)
    (engine : List ℚ → String → Option String → Except String String) :
    List Event :=
  transcribe_audio cfg recording_data (lang_var t_read) (model_var t_read) ts
    languages load_model engine

/-- `_toggle_audio_test` (src/main.py lines 375-398) together with the part
of `_run_audio_test` (lines 400-445) that opens the test stream.  All
state checks and stream operations happen under `_audio_lock`, so the
toggle is embedded as one atomic step; `open_ok` says whether
`sd.InputStream(...)` / `start()` succeeds (the `except` handler of
`_run_audio_test` clears the flag and cleans up on failure).  Only
status events are traced here. -/
def toggle_audio_test (open_ok : Bool) (s : TranscriberState) :
    TranscriberState × List Event :=
  if s.is_testing_audio then
    let s1 := (cleanup_audio_streams false false false false
      { s with is_testing_audio := false }).1
    (s1, [Event.statusChanged "Audio test stopped" "orange"])
  else if s.is_audio_busy then
    (s, [Event.statusChanged "Stop recording first" "orange"])
  else
    let s1 := { s with is_testing_audio := true }
    if open_ok then
      ({ s1 with test_stream := some { active := true } },
       [Event.statusChanged "Testing audio input..." "orange"])
    else
      ((cleanup_audio_streams false false false false
         { s1 with is_testing_audio := false }).1,
       [Event.statusChanged "Testing audio input..." "orange",
        Event.statusChanged "Audio test failed: device error" "red"])

/-- Timer expiry of `_run_audio_test` (src/main.py lines 424-436): after the
test duration the worker clears the testing flag and cleans up under the
lock. -/
def run_audio_test_timeout (s : TranscriberState) :
    TranscriberState × List Event :=
  let s1 := (cleanup_audio_streams false false false false
    { s with is_testing_audio := false }).1
  if s.is_testing_audio then
    (s1, [Event.statusChanged "Audio test complete" "green"])
  else
    (s1, [])

/-- `_start_recording` (src/main.py lines 485-525): reject when busy,
otherwise set the listening flag, clear the buffer and open the recording
stream; a stream-open failure clears the flag and cleans up. -/
def start_recording (open_ok : Bool) (s : TranscriberState) :
    TranscriberState × List Event :=
  if s.is_audio_busy then
    (s, [Event.statusChanged "Audio system busy" "orange"])
  else
    let s1 := { s with is_listening := true, recording_data := [] }
    if open_ok then
      ({ s1 with recording_stream := some { active := true } },
       [Event.statusChanged "Listening..." "red"])
    else
      ((cleanup_audio_streams false false false false
         { s1 with is_listening := false }).1,
       [Event.statusChanged "Listening..." "red",
        Event.statusChanged "Failed to start recording: device error" "red"])

/-- `_stop_recording` (src/main.py lines 527-535): clear the listening flag
and stop and close the stream under the lock, then spawn the
transcription worker. -/
def stop_recording (s : TranscriberState) : TranscriberState × List Event :=
  let s1 := (cleanup_audio_streams false false false false
    { s with is_listening := false }).1
  (s1, [Event.statusChanged "Transcribing..." "orange"])

/-- `_toggle_recording` (src/main.py lines 466-475). -/
def toggle_recording (open_ok : Bool) (s : TranscriberState) :
    TranscriberState × List Event :=
  if s.is_testing_audio then
    (s, [Event.statusChanged "Stop audio test first" "orange"])
  else if s.is_listening then
    stop_recording s
  else
    start_recording open_ok s

/-- External triggers of the controller: the two toggles (with the outcome
of any stream open they attempt) and the test-duration timer. -/
inductive ToggleEv
  | toggleTest (open_ok : Bool)
  | toggleRec (open_ok : Bool)
  | testTimeout
  deriving DecidableEq

/-- One controller step. -/
def ctrl_step (s : TranscriberState) : ToggleEv → TranscriberState × List Event
  | ToggleEv.toggleTest ok => toggle_audio_test ok s
  | ToggleEv.toggleRec ok => toggle_recording ok s
  | ToggleEv.testTimeout => run_audio_test_timeout s

/-- The controller state after a sequence of triggers, starting from the
freshly constructed `TranscriberState` (all flags false, no streams). -/
def ctrl_run (evs : List ToggleEv) : TranscriberState :=
  evs.foldl (fun s e => (ctrl_step s e).1) {}

/-- Recording-session state for the stale-callback analysis
(src/main.py lines 477-535).  Each start of a session opens a fresh
stream; `cur_gen` counts sessions, `stream_gen` is the generation of the
currently open recording stream (`none` when closed), and every buffered
chunk is tagged with the generation of the stream whose callback
appended it. -/
structure RecSession where
  is_listening : Bool := false
  stream_gen : Option Nat := none
  cur_gen : Nat := 0
  recording_data : List (Nat × List ℚ) := []
  deriving DecidableEq

/-- Events of the recording-session system: `toggleRec` is
`_toggle_recording` restricted to the recording path (start clears the
buffer and opens a new stream, src/main.py line 493 and 504; stop clears
the flag and synchronously stops and closes the stream, lines 529-531);
`deliver g c` is the adapter invoking `_record_callback` with a frame
from the stream of generation `g`. -/
inductive RecEv
  | toggleRec
  | deliver (g : Nat) (chunk : List ℚ)
  deriving DecidableEq

/-- One step of the recording-session system.  A `deliver g c` step is a
no-op unless the stream of generation `g` is still open: sounddevice's
`stop()` is synchronous, so once `_stop_recording` has stopped and closed
the stream under the lock (before `toggle_recording` returns), that
stream delivers no further frames.  A frame that does arrive runs
`_record_callback` (src/main.py lines 477-483): raise `CallbackAbort`
when `is_listening` is false, otherwise append a copy of the block. -/
def rec_step (s : RecSession) : RecEv → RecSession
  | RecEv.toggleRec =>
      if s.is_listening then
        { s with is_listening := false, stream_gen := none }
      else
        { s with is_listening := true, cur_gen := s.cur_gen + 1,
                 stream_gen := some (s.cur_gen + 1), recording_data := [] }
  | RecEv.deliver g chunk =>
      if s.stream_gen = some g then
        if s.is_listening then
          { s with recording_data := s.recording_data ++ [(g, chunk)] }
        else
          s
      else
        s

/-- The recording-session state after a sequence of events. -/
def rec_run (evs : List RecEv) : RecSession :=
  evs.foldl rec_step {}

/-- The "Audio stats" log line emitted at src/main.py lines 553-554 (RMS
elided, see `transcribe_audio`). -/
def stats_event (cfg : TranscriberConfig) (recording_data : List (List ℚ)) :
    Event :=
  Event.logAppended
    ("Audio stats - Duration: " ++
      toString ((recording_data.flatten.length : ℚ) / cfg.sample_rate) ++
      "s, Max: " ++ toString (peak_abs recording_data.flatten) ++ "\n") "timestamp"

/-- Does the event invoke the transcription engine (a `whisper.load_model`
or a `model.transcribe` call)? -/
def Event.is_engine_activity : Event → Bool
  | Event.modelLoad _ => true
  | Event.engineTranscribe _ _ _ => true
  | _ => false

/-- Is the event a clipboard publish? -/
def Event.is_clipboard_copy : Event → Bool
  | Event.clipboardCopy _ => true
  | _ => false

/-- Is the event a log append carrying transcribed text (tag
"transcription")? -/
def Event.is_transcription_log : Event → Bool
  | Event.logAppended _ tag => tag == "transcription"
  | _ => false

/-- Is the event a log append with the "error" tag? -/
def Event.is_error_log : Event → Bool
  | Event.logAppended _ tag => tag == "error"
  | _ => false

/-- Is the event a status update in the error color (red)? -/
def Event.is_error_status : Event → Bool
  | Event.statusChanged _ color => color == "red"
  | _ => false

/-- How many successful `close()` calls the slot can still absorb. -/
def close_budget : Option StreamHandle → Nat
  | none => 0
  | some h => if h.active then 1 else 0

/-- Controller invariant: the listening and testing flags are mutually
exclusive and each stream slot is occupied only while its mode is
active. -/
def ctrl_inv (s : TranscriberState) : Prop :=
  (s.is_listening && s.is_testing_audio) = false ∧
  (s.recording_stream.isSome = true → s.is_listening = true) ∧
  (s.test_stream.isSome = true → s.is_testing_audio = true)

/-- Recording-session invariant: an open stream belongs to the current
session and every buffered chunk was delivered by the current session's
stream. -/
def rec_inv (s : RecSession) : Prop :=
  (∀ g, s.stream_gen = some g → g = s.cur_gen) ∧
  (∀ p ∈ s.recording_data, p.1 = s.cur_gen)

/-- On a nonempty array, `np.max(np.abs(audio))` returns the peak absolute
amplitude. -/
theorem np_max_np_abs (l : List ℚ) (h : l ≠ []) :
    np_max (np_abs l) = Except.ok (peak_abs l) := by
  match l, h with
  | x :: xs, _ =>
    simp [np_abs, np_max, peak_abs, max_eq_right (abs_nonneg x)]

/-- A nonempty chunk list whose chunks are all nonempty concatenates to a
nonempty sample array. -/
theorem flatten_ne_nil {data : List (List ℚ)} (h : data ≠ [])
    (hc : ∀ c ∈ data, c ≠ []) : data.flatten ≠ [] := by
  match data, h with
  | c :: rest, _ =>
    have hcne : c ≠ [] := hc c (by simp)
    intro hcontra
    rw [List.flatten_cons] at hcontra
    exact hcne (List.append_eq_nil.mp hcontra).1

/-- A raise-free cleanup block always leaves the slot empty. -/
theorem cleanup_slot_fst (s : Option StreamHandle) :
    (cleanup_stream_slot false false s).1 = none := by
  cases s with
  | none => rfl
  | some h => cases hh : h.active <;> simp [cleanup_stream_slot, hh]

/-- A raise-free `_cleanup_audio_streams` empties both slots and touches
nothing else. -/
theorem cleanup_clears (s : TranscriberState) :
    (cleanup_audio_streams false false false false s).1 =
      { s with recording_stream := none, test_stream := none } := by
  simp [cleanup_audio_streams, cleanup_slot_fst]

/-- Trace of `_transcribe_audio` on an empty buffer. -/
theorem trace_empty (cfg : TranscriberConfig) (ls ms ts : String)
    (langs : String → Option String) (lm : String → Except String Unit)
    (eng : List ℚ → String → Option String → Except String String) :
    transcribe_audio cfg [] ls ms ts langs lm eng =
      [Event.statusChanged "No audio recorded" "red", Event.scheduleReset 2000,
       Event.scheduleReset 5000] := by
  simp [transcribe_audio]

/-- Trace of `_transcribe_audio` on a too-short nonempty buffer. -/
theorem trace_too_short (cfg : TranscriberConfig) (data : List (List ℚ))
    (ls ms ts : String) (langs : String → Option String)
    (lm : String → Except String Unit)
    (eng : List ℚ → String → Option String → Except String String)
    (hne : data ≠ []) (hflat : data.flatten ≠ [])
    (hshort : (data.flatten.length : ℚ) / cfg.sample_rate <
      cfg.min_recording_duration) :
    transcribe_audio cfg data ls ms ts langs lm eng =
      [stats_event cfg data, Event.statusChanged "Recording too short" "red",
       Event.scheduleReset 2000, Event.scheduleReset 5000] := by
  simp only [transcribe_audio, if_neg hne, np_max_np_abs _ hflat, if_pos hshort]
  rfl

/-- Trace of `_transcribe_audio` on a long-enough but silent buffer. -/
theorem trace_silence (cfg : TranscriberConfig) (data : List (List ℚ))
    (ls ms ts : String) (langs : String → Option String)
    (lm : String → Except String Unit)
    (eng : List ℚ → String → Option String → Except String String)
    (hne : data ≠ []) (hflat : data.flatten ≠ [])
    (hns : ¬ (data.flatten.length : ℚ) / cfg.sample_rate <
      cfg.min_recording_duration)
    (hsil : peak_abs data.flatten < cfg.silence_threshold) :
    transcribe_audio cfg data ls ms ts langs lm eng =
      [stats_event cfg data,
       Event.statusChanged "No audio detected - check microphone" "red",
       Event.logAppended "Try the Test Audio button to check your microphone levels.\n"
         "timestamp",
       Event.scheduleReset 3000, Event.scheduleReset 5000] := by
  simp only [transcribe_audio, if_neg hne, np_max_np_abs _ hflat, if_neg hns,
    if_pos hsil]
  rfl

/-- Trace of `_transcribe_audio` when validation passes but
`whisper.load_model` raises. -/
theorem trace_load_error (cfg : TranscriberConfig) (data : List (List ℚ))
    (ls ms ts : String) (langs : String → Option String)
    (lm : String → Except String Unit)
    (eng : List ℚ → String → Option String → Except String String) (e : String)
    (hne : data ≠ []) (hflat : data.flatten ≠ [])
    (hns : ¬ (data.flatten.length : ℚ) / cfg.sample_rate <
      cfg.min_recording_duration)
    (hnsil : ¬ peak_abs data.flatten < cfg.silence_threshold)
    (hlm : lm ms = Except.error e) :
    transcribe_audio cfg data ls ms ts langs lm eng =
      [stats_event cfg data, Event.statusChanged "Loading model..." "orange",
       Event.modelLoad ms, Event.statusChanged ("Error: " ++ e) "red",
       Event.logAppended ("\n[" ++ ts ++ "] Error: " ++ e ++ "\n") "error",
       Event.scheduleReset 5000] := by
  simp only [transcribe_audio, if_neg hne, np_max_np_abs _ hflat, if_neg hns,
    if_neg hnsil, hlm]
  rfl

/-- Trace of `_transcribe_audio` when validation passes, the model loads,
but the engine raises. -/
theorem trace_engine_error (cfg : TranscriberConfig) (data : List (List ℚ))
    (ls ms ts : String) (langs : String → Option String)
    (lm : String → Except String Unit)
    (eng : List ℚ → String → Option String → Except String String) (e : String)
    (hne : data ≠ []) (hflat : data.flatten ≠ [])
    (hns : ¬ (data.flatten.length : ℚ) / cfg.sample_rate <
      cfg.min_recording_duration)
    (hnsil : ¬ peak_abs data.flatten < cfg.silence_threshold)
    (hlm : lm ms = Except.ok ())
    (heng : eng data.flatten ms (lang_argument langs ls) = Except.error e) :
    transcribe_audio cfg data ls ms ts langs lm eng =
      [stats_event cfg data, Event.statusChanged "Loading model..." "orange",
       Event.modelLoad ms, Event.statusChanged "Transcribing..." "orange",
       Event.engineTranscribe data.flatten ms (lang_argument langs ls),
       Event.statusChanged ("Error: " ++ e) "red",
       Event.logAppended ("\n[" ++ ts ++ "] Error: " ++ e ++ "\n") "error",
       Event.scheduleReset 5000] := by
  simp only [transcribe_audio, if_neg hne, np_max_np_abs _ hflat, if_neg hns,
    if_neg hnsil, hlm, heng]
  rfl

/-- Trace of `_transcribe_audio` when the engine succeeds but the trimmed
text is empty. -/
theorem trace_no_speech (cfg : TranscriberConfig) (data : List (List ℚ))
    (ls ms ts : String) (langs : String → Option String)
    (lm : String → Except String Unit)
    (eng : List ℚ → String → Option String → Except String String)
    (raw : String)
    (hne : data ≠ []) (hflat : data.flatten ≠ [])
    (hns : ¬ (data.flatten.length : ℚ) / cfg.sample_rate <
      cfg.min_recording_duration)
    (hnsil : ¬ peak_abs data.flatten < cfg.silence_threshold)
    (hlm : lm ms = Except.ok ())
    (heng : eng data.flatten ms (lang_argument langs ls) = Except.ok raw)
    (hraw : py_strip raw = "") :
    transcribe_audio cfg data ls ms ts langs lm eng =
      [stats_event cfg data, Event.statusChanged "Loading model..." "orange",
       Event.modelLoad ms, Event.statusChanged "Transcribing..." "orange",
       Event.engineTranscribe data.flatten ms (lang_argument langs ls),
       Event.statusChanged "No speech detected" "orange",
       Event.logAppended ("\n[" ++ ts ++ "] No speech detected\n") "timestamp",
       Event.scheduleReset 5000] := by
  simp only [transcribe_audio, if_neg hne, np_max_np_abs _ hflat, if_neg hns,
    if_neg hnsil, hlm, heng, hraw]
  rfl

/-- Trace of `_transcribe_audio` on a fully successful run. -/
theorem trace_success (cfg : TranscriberConfig) (data : List (List ℚ))
    (ls ms ts : String) (langs : String → Option String)
    (lm : String → Except String Unit)
    (eng : List ℚ → String → Option String → Except String String)
    (raw : String)
    (hne : data ≠ []) (hflat : data.flatten ≠ [])
    (hns : ¬ (data.flatten.length : ℚ) / cfg.sample_rate <
      cfg.min_recording_duration)
    (hnsil : ¬ peak_abs data.flatten < cfg.silence_threshold)
    (hlm : lm ms = Except.ok ())
    (heng : eng data.flatten ms (lang_argument langs ls) = Except.ok raw)
    (hraw : py_strip raw ≠ "") :
    transcribe_audio cfg data ls ms ts langs lm eng =
      [stats_event cfg data, Event.statusChanged "Loading model..." "orange",
       Event.modelLoad ms, Event.statusChanged "Transcribing..." "orange",
       Event.engineTranscribe data.flatten ms (lang_argument langs ls),
       Event.logAppended ("\n[" ++ ts ++ "] ") "timestamp",
       Event.logAppended (py_strip raw ++ "\n") "transcription",
       Event.clipboardCopy (py_strip raw),
       Event.statusChanged "Transcribed & copied to clipboard!" "green",
       Event.scheduleReset 5000] := by
  simp only [transcribe_audio, if_neg hne, np_max_np_abs _ hflat, if_neg hns,
    if_neg hnsil, hlm, heng, if_pos hraw]
  rfl

/-- C1: in every stop-recording validation run (on buffers whose chunks
are the nonempty blocks the audio callback delivers), an empty buffer
fails with EmptyRecording before any duration is computed (its trace has
no stats line); otherwise the chunks are concatenated and
duration = total_samples / sample_rate, and duration <
min_recording_duration fails with TooShort; otherwise peak absolute
amplitude < silence_threshold fails with Silence; otherwise transcription
proceeds with the concatenated samples.  The checks apply in exactly this
order. -/
theorem C1_validation_order (cfg : TranscriberConfig) (data : List (List ℚ))
    (ls ms ts : String) (langs : String → Option String)
    (lm : String → Except String Unit)
    (eng : List ℚ → String → Option String → Except String String)
    (hc : ∀ c ∈ data, c ≠ []) :
    (data = [] → transcribe_audio cfg data ls ms ts langs lm eng =
      [Event.statusChanged "No audio recorded" "red", Event.scheduleReset 2000,
       Event.scheduleReset 5000]) ∧
    (data ≠ [] →
      (data.flatten.length : ℚ) / cfg.sample_rate < cfg.min_recording_duration →
      transcribe_audio cfg data ls ms ts langs lm eng =
        [stats_event cfg data, Event.statusChanged "Recording too short" "red",
         Event.scheduleReset 2000, Event.scheduleReset 5000]) ∧
    (data ≠ [] →
      ¬ (data.flatten.length : ℚ) / cfg.sample_rate < cfg.min_recording_duration →
      peak_abs data.flatten < cfg.silence_threshold →
      transcribe_audio cfg data ls ms ts langs lm eng =
        [stats_event cfg data,
         Event.statusChanged "No audio detected - check microphone" "red",
         Event.logAppended "Try the Test Audio button to check your microphone levels.\n"
           "timestamp",
         Event.scheduleReset 3000, Event.scheduleReset 5000]) ∧
    (data ≠ [] →
      ¬ (data.flatten.length : ℚ) / cfg.sample_rate < cfg.min_recording_duration →
      ¬ peak_abs data.flatten < cfg.silence_threshold →
      Event.modelLoad ms ∈ transcribe_audio cfg data ls ms ts langs lm eng ∧
      (lm ms = Except.ok () →
        Event.engineTranscribe data.flatten ms (lang_argument langs ls) ∈
          transcribe_audio cfg data ls ms ts langs lm eng)) := by
  refine ⟨?_, ?_, ?_, ?_⟩
  · intro he
    subst he
    exact trace_empty cfg ls ms ts langs lm eng
  · intro hne hshort
    exact trace_too_short cfg data ls ms ts langs lm eng hne
      (flatten_ne_nil hne hc) hshort
  · intro hne hns hsil
    exact trace_silence cfg data ls ms ts langs lm eng hne
      (flatten_ne_nil hne hc) hns hsil
  · intro hne hns hnsil
    have hflat := flatten_ne_nil hne hc
    cases hlm : lm ms with
    | error e =>
      rw [trace_load_error cfg data ls ms ts langs lm eng e hne hflat hns hnsil
        hlm]
      refine ⟨by simp, ?_⟩
      intro hok
      simp [hlm] at hok
    | ok u =>
      cases u
      cases heng : eng data.flatten ms (lang_argument langs ls) with
      | error e =>
        rw [trace_engine_error cfg data ls ms ts langs lm eng e hne hflat hns
          hnsil hlm heng]
        exact ⟨by simp, fun _ => by simp⟩
      | ok raw =>
        by_cases hraw : py_strip raw = ""
        · rw [trace_no_speech cfg data ls ms ts langs lm eng raw hne hflat hns
            hnsil hlm heng hraw]
          exact ⟨by simp, fun _ => by simp⟩
        · rw [trace_success cfg data ls ms ts langs lm eng raw hne hflat hns
            hnsil hlm heng hraw]
          exact ⟨by simp, fun _ => by simp⟩

/-- Witness for C1: one chunk of a single sample at 16 kHz lasts
1/16000 s < 0.5 s, so the run is rejected as TooShort after the stats
line. -/
theorem C1_validation_order_witness :
    transcribe_audio {} [[(1 : ℚ)/2]] "Autodetect" "base" "12:00:00"
        (fun _ => none) (fun _ => Except.ok ())
        (fun _ _ _ => Except.ok " hi ") =
      [stats_event {} [[(1 : ℚ)/2]],
       Event.statusChanged "Recording too short" "red",
       Event.scheduleReset 2000, Event.scheduleReset 5000] :=
  (C1_validation_order {} [[(1 : ℚ)/2]] "Autodetect" "base" "12:00:00"
      (fun _ => none) (fun _ => Except.ok ()) (fun _ _ _ => Except.ok " hi ")
      (by decide)).2.1 (by decide) (by norm_num [List.flatten])

/-- C10: the validation boundaries are strict.  A recording whose duration
is exactly min_recording_duration is not rejected as TooShort, and one
whose peak absolute amplitude is exactly silence_threshold is not
rejected as Silence: both runs reach the model load (both source
comparisons, src/main.py lines 557 and 563, use strict less-than).  The
collaborators are pinned to succeed so the trace is explicit. -/
theorem C10_strict_boundaries (cfg : TranscriberConfig)
    (data data' : List (List ℚ)) (ls ms ts : String)
    (langs : String → Option String) (lm : String → Except String Unit)
    (eng : List ℚ → String → Option String → Except String String)
    (raw raw' : String)
    (hne : data ≠ []) (hflat : data.flatten ≠ [])
    (hdur : (data.flatten.length : ℚ) / cfg.sample_rate =
      cfg.min_recording_duration)
    (hpeak : ¬ peak_abs data.flatten < cfg.silence_threshold)
    (hne' : data' ≠ []) (hflat' : data'.flatten ≠ [])
    (hdur' : ¬ (data'.flatten.length : ℚ) / cfg.sample_rate <
      cfg.min_recording_duration)
    (hpeak' : peak_abs data'.flatten = cfg.silence_threshold)
    (hlm : lm ms = Except.ok ())
    (heng : eng data.flatten ms (lang_argument langs ls) = Except.ok raw)
    (heng' : eng data'.flatten ms (lang_argument langs ls) = Except.ok raw') :
    (Event.statusChanged "Recording too short" "red" ∉
        transcribe_audio cfg data ls ms ts langs lm eng ∧
      Event.modelLoad ms ∈ transcribe_audio cfg data ls ms ts langs lm eng) ∧
    (Event.statusChanged "No audio detected - check microphone" "red" ∉
        transcribe_audio cfg data' ls ms ts langs lm eng ∧
      Event.modelLoad ms ∈ transcribe_audio cfg data' ls ms ts langs lm eng) := by
  have hns : ¬ (data.flatten.length : ℚ) / cfg.sample_rate <
      cfg.min_recording_duration := not_lt.mpr (le_of_eq hdur.symm)
  have hnsil' : ¬ peak_abs data'.flatten < cfg.silence_threshold :=
    not_lt.mpr (le_of_eq hpeak'.symm)
  constructor
  · by_cases hraw : py_strip raw = ""
    · rw [trace_no_speech cfg data ls ms ts langs lm eng raw hne hflat hns
        hpeak hlm heng hraw]
      exact ⟨by simp [stats_event], by simp⟩
    · rw [trace_success cfg data ls ms ts langs lm eng raw hne hflat hns
        hpeak hlm heng hraw]
      exact ⟨by simp [stats_event], by simp⟩
  · by_cases hraw' : py_strip raw' = ""
    · rw [trace_no_speech cfg data' ls ms ts langs lm eng raw' hne' hflat'
        hdur' hnsil' hlm heng' hraw']
      exact ⟨by simp [stats_event], by simp⟩
    · rw [trace_success cfg data' ls ms ts langs lm eng raw' hne' hflat'
        hdur' hnsil' hlm heng' hraw']
      exact ⟨by simp [stats_event], by simp⟩

/-- Witness for C10 at sample rate 2: `[[0, 1]]` has duration
2/2 = 1 s = min_recording_duration exactly and peak 1, and
`[[1/1000, 1/1000, 1/1000]]` has duration 1.5 s and peak exactly
silence_threshold = 1/1000; both runs reach the model load. -/
theorem C10_strict_boundaries_witness :
    (Event.statusChanged "Recording too short" "red" ∉
        transcribe_audio { sample_rate := 2, min_recording_duration := 1 }
          [[(0 : ℚ), 1]] "Autodetect" "base" "12:00:00" (fun _ => none)
          (fun _ => Except.ok ()) (fun _ _ _ => Except.ok "hi") ∧
      Event.modelLoad "base" ∈
        transcribe_audio { sample_rate := 2, min_recording_duration := 1 }
          [[(0 : ℚ), 1]] "Autodetect" "base" "12:00:00" (fun _ => none)
          (fun _ => Except.ok ()) (fun _ _ _ => Except.ok "hi")) ∧
    (Event.statusChanged "No audio detected - check microphone" "red" ∉
        transcribe_audio { sample_rate := 2, min_recording_duration := 1 }
          [[(1 : ℚ)/1000, 1/1000, 1/1000]] "Autodetect" "base" "12:00:00"
          (fun _ => none) (fun _ => Except.ok ())
          (fun _ _ _ => Except.ok "hi") ∧
      Event.modelLoad "base" ∈
        transcribe_audio { sample_rate := 2, min_recording_duration := 1 }
          [[(1 : ℚ)/1000, 1/1000, 1/1000]] "Autodetect" "base" "12:00:00"
          (fun _ => none) (fun _ => Except.ok ())
          (fun _ _ _ => Except.ok "hi")) :=
  C10_strict_boundaries { sample_rate := 2, min_recording_duration := 1 }
    [[(0 : ℚ), 1]] [[(1 : ℚ)/1000, 1/1000, 1/1000]] "Autodetect" "base"
    "12:00:00" (fun _ => none) (fun _ => Except.ok ())
    (fun _ _ _ => Except.ok "hi") "hi" "hi"
    (by decide) (by decide) (by norm_num [List.flatten])
    (by norm_num [List.flatten, peak_abs, np_abs])
    (by decide) (by decide) (by norm_num [List.flatten])
    (by norm_num [List.flatten, peak_abs, np_abs]) rfl rfl rfl

/-- C4: every pre-transcription validation failure (EmptyRecording,
TooShort, Silence) is reported to the event sink as a status event, the
transcription engine is never invoked (no model load, no transcribe
call in the trace), a status reset is scheduled, and since
`_stop_recording` has already cleared the listening flag, the scheduled
`_reset_status` displays Idle: the controller state returns to Idle. -/
theorem C4_failure_reporting (cfg : TranscriberConfig) (data : List (List ℚ))
    (ls ms ts : String) (langs : String → Option String)
    (lm : String → Except String Unit)
    (eng : List ℚ → String → Option String → Except String String)
    (s : TranscriberState)
    (hc : ∀ c ∈ data, c ≠ [])
    (hl : s.is_listening = true) (ht : s.is_testing_audio = false) :
    (data = [] →
      Event.statusChanged "No audio recorded" "red" ∈
        transcribe_audio cfg data ls ms ts langs lm eng ∧
      (transcribe_audio cfg data ls ms ts langs lm eng).all
        (fun e => !e.is_engine_activity) = true ∧
      Event.scheduleReset 2000 ∈ transcribe_audio cfg data ls ms ts langs lm eng) ∧
    (data ≠ [] →
      (data.flatten.length : ℚ) / cfg.sample_rate < cfg.min_recording_duration →
      Event.statusChanged "Recording too short" "red" ∈
        transcribe_audio cfg data ls ms ts langs lm eng ∧
      (transcribe_audio cfg data ls ms ts langs lm eng).all
        (fun e => !e.is_engine_activity) = true ∧
      Event.scheduleReset 2000 ∈ transcribe_audio cfg data ls ms ts langs lm eng) ∧
    (data ≠ [] →
      ¬ (data.flatten.length : ℚ) / cfg.sample_rate < cfg.min_recording_duration →
      peak_abs data.flatten < cfg.silence_threshold →
      Event.statusChanged "No audio detected - check microphone" "red" ∈
        transcribe_audio cfg data ls ms ts langs lm eng ∧
      (transcribe_audio cfg data ls ms ts langs lm eng).all
        (fun e => !e.is_engine_activity) = true ∧
      Event.scheduleReset 3000 ∈ transcribe_audio cfg data ls ms ts langs lm eng) ∧
    (∀ cur, reset_status_text (toggle_recording true s).1 cur = "Idle") := by
  refine ⟨?_, ?_, ?_, ?_⟩
  · intro he
    subst he
    rw [trace_empty cfg ls ms ts langs lm eng]
    refine ⟨by simp, by decide, by simp⟩
  · intro hne hshort
    rw [trace_too_short cfg data ls ms ts langs lm eng hne
      (flatten_ne_nil hne hc) hshort]
    refine ⟨by simp, by simp [stats_event, Event.is_engine_activity], by simp⟩
  · intro hne hns hsil
    rw [trace_silence cfg data ls ms ts langs lm eng hne
      (flatten_ne_nil hne hc) hns hsil]
    refine ⟨by simp, by simp [stats_event, Event.is_engine_activity], by simp⟩
  · intro cur
    have hstop : (toggle_recording true s).1 =
        { s with is_listening := false, recording_stream := none,
                 test_stream := none } := by
      simp [toggle_recording, ht, hl, stop_recording, cleanup_clears]
    rw [hstop]
    simp [reset_status_text, TranscriberState.is_audio_busy, ht]

/-- Witness for C4: an empty buffer, reported as "No audio recorded" with
no engine activity, while the stopped controller resets to Idle. -/
theorem C4_failure_reporting_witness :
    Event.statusChanged "No audio recorded" "red" ∈
      transcribe_audio {} [] "Autodetect" "base" "12:00:00" (fun _ => none)
        (fun _ => Except.ok ()) (fun _ _ _ => Except.ok "hi") ∧
    (transcribe_audio {} [] "Autodetect" "base" "12:00:00" (fun _ => none)
        (fun _ => Except.ok ()) (fun _ _ _ => Except.ok "hi")).all
      (fun e => !e.is_engine_activity) = true ∧
    Event.scheduleReset 2000 ∈
      transcribe_audio {} [] "Autodetect" "base" "12:00:00" (fun _ => none)
        (fun _ => Except.ok ()) (fun _ _ _ => Except.ok "hi") :=
  (C4_failure_reporting {} [] "Autodetect" "base" "12:00:00" (fun _ => none)
      (fun _ => Except.ok ()) (fun _ _ _ => Except.ok "hi")
      { is_listening := true } (by decide) rfl rfl).1 rfl

/-- C5: for a valid recording, the pipeline trims surrounding whitespace
from the engine's text (`str(result.get("text", "")).strip()`, src line
592): when the trimmed text is nonempty it is the text copied and logged;
when it is empty the outcome is "No speech detected" in the informational
color with no error-tagged log and no red status (not an engine failure)
and without the amplitude-based Silence status; and when the engine
raises, the message is wrapped as "Error: <msg>" in a red status and an
error-tagged log. -/
theorem C5_trim_and_errors (cfg : TranscriberConfig) (data : List (List ℚ))
    (ls ms ts : String) (langs : String → Option String)
    (lm : String → Except String Unit)
    (eng : List ℚ → String → Option String → Except String String)
    (hne : data ≠ []) (hflat : data.flatten ≠ [])
    (hns : ¬ (data.flatten.length : ℚ) / cfg.sample_rate <
      cfg.min_recording_duration)
    (hnsil : ¬ peak_abs data.flatten < cfg.silence_threshold)
    (hlm : lm ms = Except.ok ()) :
    (∀ raw, eng data.flatten ms (lang_argument langs ls) = Except.ok raw →
      py_strip raw ≠ "" →
      Event.clipboardCopy (py_strip raw) ∈
        transcribe_audio cfg data ls ms ts langs lm eng ∧
      Event.logAppended (py_strip raw ++ "\n") "transcription" ∈
        transcribe_audio cfg data ls ms ts langs lm eng) ∧
    (∀ raw, eng data.flatten ms (lang_argument langs ls) = Except.ok raw →
      py_strip raw = "" →
      Event.statusChanged "No speech detected" "orange" ∈
        transcribe_audio cfg data ls ms ts langs lm eng ∧
      (transcribe_audio cfg data ls ms ts langs lm eng).all
        (fun e => !e.is_error_log) = true ∧
      (transcribe_audio cfg data ls ms ts langs lm eng).all
        (fun e => !e.is_error_status) = true ∧
      Event.statusChanged "No audio detected - check microphone" "red" ∉
        transcribe_audio cfg data ls ms ts langs lm eng) ∧
    (∀ e, eng data.flatten ms (lang_argument langs ls) = Except.error e →
      Event.statusChanged ("Error: " ++ e) "red" ∈
        transcribe_audio cfg data ls ms ts langs lm eng ∧
      Event.logAppended ("\n[" ++ ts ++ "] Error: " ++ e ++ "\n") "error" ∈
        transcribe_audio cfg data ls ms ts langs lm eng) := by
  refine ⟨?_, ?_, ?_⟩
  · intro raw heng hraw
    rw [trace_success cfg data ls ms ts langs lm eng raw hne hflat hns hnsil
      hlm heng hraw]
    exact ⟨by simp, by simp⟩
  · intro raw heng hraw
    rw [trace_no_speech cfg data ls ms ts langs lm eng raw hne hflat hns hnsil
      hlm heng hraw]
    refine ⟨by simp, ?_, ?_, by simp [stats_event]⟩
    · simp [stats_event, Event.is_error_log]
    · simp [stats_event, Event.is_error_status]
  · intro e heng
    rw [trace_engine_error cfg data ls ms ts langs lm eng e hne hflat hns hnsil
      hlm heng]
    exact ⟨by simp, by simp⟩

/-- Witness for C5: a two-sample recording at rate 2 with an engine
returning text with surrounding whitespace; the trimmed text is copied
and logged. -/
theorem C5_trim_and_errors_witness :
    Event.clipboardCopy "hello world" ∈
      transcribe_audio { sample_rate := 2, min_recording_duration := 1 }
        [[(0 : ℚ), 1]] "Autodetect" "base" "12:00:00" (fun _ => none)
        (fun _ => Except.ok ()) (fun _ _ _ => Except.ok " hello world ") ∧
    Event.logAppended ("hello world" ++ "\n") "transcription" ∈
      transcribe_audio { sample_rate := 2, min_recording_duration := 1 }
        [[(0 : ℚ), 1]] "Autodetect" "base" "12:00:00" (fun _ => none)
        (fun _ => Except.ok ()) (fun _ _ _ => Except.ok " hello world ") := by
  have h := (C5_trim_and_errors { sample_rate := 2, min_recording_duration := 1 }
    [[(0 : ℚ), 1]] "Autodetect" "base" "12:00:00" (fun _ => none)
    (fun _ => Except.ok ()) (fun _ _ _ => Except.ok " hello world ")
    (by decide) (by decide) (by norm_num [List.flatten])
    (by norm_num [List.flatten, peak_abs, np_abs]) rfl).1
    " hello world " rfl (by decide)
  have htrim : py_strip " hello world " = "hello world" := by decide
  rw [htrim] at h
  exact h

/-- C6: for every successful transcription (nonempty trimmed text) the
trace holds exactly one clipboard copy of the text, exactly one
transcription log append whose payload contains the text, and the
clipboard publish precedes the result status event: the trace ends with
timestamp-log, transcription-log, copy, success status, scheduled
reset. -/
theorem C6_clipboard_once (cfg : TranscriberConfig) (data : List (List ℚ))
    (ls ms ts : String) (langs : String → Option String)
    (lm : String → Except String Unit)
    (eng : List ℚ → String → Option String → Except String String)
    (raw : String)
    (hne : data ≠ []) (hflat : data.flatten ≠ [])
    (hns : ¬ (data.flatten.length : ℚ) / cfg.sample_rate <
      cfg.min_recording_duration)
    (hnsil : ¬ peak_abs data.flatten < cfg.silence_threshold)
    (hlm : lm ms = Except.ok ())
    (heng : eng data.flatten ms (lang_argument langs ls) = Except.ok raw)
    (hraw : py_strip raw ≠ "") :
    (transcribe_audio cfg data ls ms ts langs lm eng).filter
        Event.is_clipboard_copy = [Event.clipboardCopy (py_strip raw)] ∧
    (transcribe_audio cfg data ls ms ts langs lm eng).filter
        Event.is_transcription_log =
      [Event.logAppended (py_strip raw ++ "\n") "transcription"] ∧
    (∃ a b, py_strip raw ++ "\n" = a ++ py_strip raw ++ b) ∧
    (∃ pre, transcribe_audio cfg data ls ms ts langs lm eng =
      pre ++ [Event.logAppended ("\n[" ++ ts ++ "] ") "timestamp",
        Event.logAppended (py_strip raw ++ "\n") "transcription",
        Event.clipboardCopy (py_strip raw),
        Event.statusChanged "Transcribed & copied to clipboard!" "green",
        Event.scheduleReset 5000]) := by
  rw [trace_success cfg data ls ms ts langs lm eng raw hne hflat hns hnsil hlm
    heng hraw]
  refine ⟨?_, ?_, ⟨"", "\n", by simp⟩, ?_⟩
  · simp [List.filter, stats_event, Event.is_clipboard_copy]
  · simp [List.filter, stats_event, Event.is_transcription_log]
  · exact ⟨[stats_event cfg data,
      Event.statusChanged "Loading model..." "orange", Event.modelLoad ms,
      Event.statusChanged "Transcribing..." "orange",
      Event.engineTranscribe data.flatten ms (lang_argument langs ls)],
      by simp⟩

/-- Witness for C6: a mock engine returning "hello world" yields exactly
one copy and one transcription log append of that text. -/
theorem C6_clipboard_once_witness :
    (transcribe_audio { sample_rate := 2, min_recording_duration := 1 }
        [[(0 : ℚ), 1]] "Autodetect" "base" "12:00:00" (fun _ => none)
        (fun _ => Except.ok ()) (fun _ _ _ => Except.ok "hello world")).filter
      Event.is_clipboard_copy =
      [Event.clipboardCopy (py_strip "hello world")] ∧
    (transcribe_audio { sample_rate := 2, min_recording_duration := 1 }
        [[(0 : ℚ), 1]] "Autodetect" "base" "12:00:00" (fun _ => none)
        (fun _ => Except.ok ()) (fun _ _ _ => Except.ok "hello world")).filter
      Event.is_transcription_log =
      [Event.logAppended (py_strip "hello world" ++ "\n") "transcription"] :=
  ⟨(C6_clipboard_once { sample_rate := 2, min_recording_duration := 1 }
      [[(0 : ℚ), 1]] "Autodetect" "base" "12:00:00" (fun _ => none)
      (fun _ => Except.ok ()) (fun _ _ _ => Except.ok "hello world")
      "hello world" (by decide) (by decide) (by norm_num [List.flatten])
      (by norm_num [List.flatten, peak_abs, np_abs]) rfl rfl
      (by decide)).1,
   (C6_clipboard_once { sample_rate := 2, min_recording_duration := 1 }
      [[(0 : ℚ), 1]] "Autodetect" "base" "12:00:00" (fun _ => none)
      (fun _ => Except.ok ()) (fun _ _ _ => Except.ok "hello world")
      "hello world" (by decide) (by decide) (by norm_num [List.flatten])
      (by norm_num [List.flatten, peak_abs, np_abs]) rfl rfl
      (by decide)).2.1⟩

/-- The controller invariant holds in the initial state. -/
theorem ctrl_inv_init : ctrl_inv {} := by
  refine ⟨rfl, ?_, ?_⟩ <;> intro h <;> simp at h

/-- Every controller step preserves the controller invariant. -/
theorem ctrl_inv_step (s : TranscriberState) (e : ToggleEv)
    (h : ctrl_inv s) : ctrl_inv (ctrl_step s e).1 := by
  obtain ⟨h1, h2, h3⟩ := h
  cases e with
  | toggleTest ok =>
    cases hl : s.is_listening <;> cases ht : s.is_testing_audio <;> cases ok <;>
      simp_all [ctrl_step, toggle_audio_test, TranscriberState.is_audio_busy,
        cleanup_clears, ctrl_inv]
  | toggleRec ok =>
    cases hl : s.is_listening <;> cases ht : s.is_testing_audio <;> cases ok <;>
      simp_all [ctrl_step, toggle_recording, stop_recording, start_recording,
        TranscriberState.is_audio_busy, cleanup_clears, ctrl_inv]
  | testTimeout =>
    cases hl : s.is_listening <;> cases ht : s.is_testing_audio <;>
      simp_all [ctrl_step, run_audio_test_timeout,
        TranscriberState.is_audio_busy, cleanup_clears, ctrl_inv]

/-- The controller invariant holds after any trigger sequence. -/
theorem ctrl_inv_run (evs : List ToggleEv) : ctrl_inv (ctrl_run evs) := by
  rw [ctrl_run]
  have hgen : ∀ s, ctrl_inv s →
      ctrl_inv (evs.foldl (fun s e => (ctrl_step s e).1) s) := by
    induction evs with
    | nil => intro s hs; exact hs
    | cons e rest ih =>
      intro s hs
      exact ih _ (ctrl_inv_step s e hs)
  exact hgen {} ctrl_inv_init

/-- C2: for all sequences of toggle_test and toggle_recording calls (and
test-timer expiries), the controller is never simultaneously Testing and
Listening, and the test and recording stream slots are never both
occupied: at most one audio stream is open at any instant. -/
theorem C2_mutual_exclusion (evs : List ToggleEv) :
    ((ctrl_run evs).is_listening && (ctrl_run evs).is_testing_audio) = false ∧
    ((ctrl_run evs).recording_stream.isSome &&
      (ctrl_run evs).test_stream.isSome) = false := by
  obtain ⟨h1, h2, h3⟩ := ctrl_inv_run evs
  refine ⟨h1, ?_⟩
  cases hr : (ctrl_run evs).recording_stream.isSome with
  | false => simp
  | true =>
    cases ht : (ctrl_run evs).test_stream.isSome with
    | false => simp
    | true =>
      rw [h2 hr, h3 ht] at h1
      cases h1

/-- C3: calling toggle_test while Listening, or toggle_recording while
Testing, is a rejected transition: the state (including both stream
slots) is returned unchanged and exactly one status event is emitted, in
the informational color ("orange", not the error color "red"). -/
theorem C3_rejected_transitions (s s' : TranscriberState) (ok ok' : Bool)
    (hl : s.is_listening = true) (ht : s.is_testing_audio = false)
    (ht' : s'.is_testing_audio = true) :
    toggle_audio_test ok s =
      (s, [Event.statusChanged "Stop recording first" "orange"]) ∧
    toggle_recording ok' s' =
      (s', [Event.statusChanged "Stop audio test first" "orange"]) ∧
    (toggle_audio_test ok s).2.length = 1 ∧
    (toggle_recording ok' s').2.length = 1 ∧
    (toggle_audio_test ok s).2.all (fun e => !e.is_error_status) = true ∧
    (toggle_recording ok' s').2.all (fun e => !e.is_error_status) = true := by
  have hta : toggle_audio_test ok s =
      (s, [Event.statusChanged "Stop recording first" "orange"]) := by
    simp [toggle_audio_test, ht, TranscriberState.is_audio_busy, hl]
  have htr : toggle_recording ok' s' =
      (s', [Event.statusChanged "Stop audio test first" "orange"]) := by
    simp [toggle_recording, ht']
  refine ⟨hta, htr, ?_, ?_, ?_, ?_⟩ <;>
    simp [hta, htr, Event.is_error_status]

/-- Witness for C3: a listening controller rejects a test toggle and a
testing controller rejects a recording toggle, each with one orange
status event. -/
theorem C3_rejected_transitions_witness :
    toggle_audio_test true { is_listening := true } =
      ({ is_listening := true },
       [Event.statusChanged "Stop recording first" "orange"]) ∧
    toggle_recording true { is_testing_audio := true } =
      ({ is_testing_audio := true },
       [Event.statusChanged "Stop audio test first" "orange"]) :=
  ⟨(C3_rejected_transitions { is_listening := true }
      { is_testing_audio := true } true true rfl rfl rfl).1,
   (C3_rejected_transitions { is_listening := true }
      { is_testing_audio := true } true true rfl rfl rfl).2.1⟩

/-- One cleanup block never emits more `close()` calls than the slot can
absorb, and leaves no absorbable close behind it didn't account for. -/
theorem cleanup_slot_budget (f g : Bool) (s : Option StreamHandle) :
    (cleanup_stream_slot f g s).2.count CleanupAct.closeCall +
      close_budget (cleanup_stream_slot f g s).1 ≤ close_budget s := by
  cases s with
  | none => simp [cleanup_stream_slot, close_budget]
  | some h =>
    cases hh : h.active <;> cases f <;> cases g <;>
      simp [cleanup_stream_slot, close_budget, hh, List.count_cons,
        List.count_nil]

/-- Budget bound over any sequence of cleanup calls on one slot. -/
theorem cleanup_calls_budget (flags : List (Bool × Bool))
    (s : Option StreamHandle) :
    (cleanup_calls flags s).2.count CleanupAct.closeCall +
      close_budget (cleanup_calls flags s).1 ≤ close_budget s := by
  induction flags generalizing s with
  | nil => simp [cleanup_calls]
  | cons f rest ih =>
    simp only [cleanup_calls, List.count_append]
    have h1 := cleanup_slot_budget f.1 f.2 s
    have h2 := ih (cleanup_stream_slot f.1 f.2 s).1
    omega

/-- A slot can absorb at most one close. -/
theorem close_budget_le_one (s : Option StreamHandle) : close_budget s ≤ 1 := by
  cases s with
  | none => simp [close_budget]
  | some h => cases hh : h.active <;> simp [close_budget, hh]

/-- C7: stream teardown is idempotent and non-throwing.
(i) Running `_cleanup_audio_streams` when both streams are already closed
or were never opened is a no-op and performs no stream calls, whatever
raises its `stop`/`close` calls would produce.
(ii) After a raise-free cleanup, a second cleanup returns the state
unchanged and performs no stream calls.
(iii) Across any sequence of cleanup calls on a slot, with `stop()` and
`close()` raising arbitrarily (raises are caught and logged, never
propagated — the embedding is a total function), `close()` is called at
most once: the handle is never double-closed. -/
theorem C7_idempotent_teardown (f1 f2 f3 f4 : Bool) (s : TranscriberState)
    (flags : List (Bool × Bool)) (slot : Option StreamHandle) :
    (cleanup_audio_streams f1 f2 f3 f4
        { s with recording_stream := none, test_stream := none } =
      ({ s with recording_stream := none, test_stream := none }, [])) ∧
    (cleanup_audio_streams f1 f2 f3 f4
        (cleanup_audio_streams false false false false s).1 =
      ((cleanup_audio_streams false false false false s).1, [])) ∧
    (cleanup_calls flags slot).2.count CleanupAct.closeCall ≤ 1 := by
  have hnone : ∀ t : TranscriberState, t.recording_stream = none →
      t.test_stream = none → cleanup_audio_streams f1 f2 f3 f4 t = (t, []) := by
    intro t h1 h2
    cases t
    simp_all [cleanup_audio_streams, cleanup_stream_slot]
  refine ⟨hnone _ rfl rfl, ?_, ?_⟩
  · rw [cleanup_clears]
    exact hnone _ rfl rfl
  · have h1 := cleanup_calls_budget flags slot
    have h2 := close_budget_le_one slot
    have h3 := close_budget_le_one (cleanup_calls flags slot).1
    omega

/-- The recording-session invariant holds initially. -/
theorem rec_inv_init : rec_inv {} :=
  ⟨fun _ hg => absurd hg (by simp), fun _ hp => absurd hp (by simp)⟩

/-- Every recording-session step preserves the invariant. -/
theorem rec_inv_step (s : RecSession) (e : RecEv) (h : rec_inv s) :
    rec_inv (rec_step s e) := by
  obtain ⟨h1, h2⟩ := h
  cases e with
  | toggleRec =>
    cases hl : s.is_listening with
    | true =>
      have hstep : rec_step s RecEv.toggleRec =
          { s with is_listening := false, stream_gen := none } := by
        simp [rec_step, hl]
      rw [hstep]
      exact ⟨fun g hg => absurd hg (by simp), fun p hp => h2 p hp⟩
    | false =>
      have hstep : rec_step s RecEv.toggleRec =
          { s with is_listening := true, cur_gen := s.cur_gen + 1,
                   stream_gen := some (s.cur_gen + 1), recording_data := [] } := by
        simp [rec_step, hl]
      rw [hstep]
      refine ⟨fun g hg => ?_, fun p hp => absurd hp (by simp)⟩
      have hg' : some (s.cur_gen + 1) = some g := hg
      exact (Option.some.inj hg').symm
  | deliver g c =>
    by_cases hs : s.stream_gen = some g
    · cases hl : s.is_listening with
      | true =>
        have hstep : rec_step s (RecEv.deliver g c) =
            { s with recording_data := s.recording_data ++ [(g, c)] } := by
          simp [rec_step, hs, hl]
        rw [hstep]
        refine ⟨fun g1 hg1 => h1 g1 hg1, fun p hp => ?_⟩
        have hp' : p ∈ s.recording_data ∨ p ∈ [(g, c)] :=
          List.mem_append.mp hp
        cases hp' with
        | inl hp0 => exact h2 p hp0
        | inr hp0 =>
          have hpe : p = (g, c) := by
            cases hp0 with
            | head => rfl
            | tail _ hn => cases hn
          rw [hpe]
          exact h1 g hs
      | false =>
        have hstep : rec_step s (RecEv.deliver g c) = s := by
          simp [rec_step, hs, hl]
        rw [hstep]
        exact ⟨h1, h2⟩
    · have hstep : rec_step s (RecEv.deliver g c) = s := by
        simp [rec_step, hs]
      rw [hstep]
      exact ⟨h1, h2⟩

/-- The recording-session invariant holds after any event sequence. -/
theorem rec_inv_run (evs : List RecEv) : rec_inv (rec_run evs) := by
  rw [rec_run]
  have hgen : ∀ s, rec_inv s → rec_inv (evs.foldl rec_step s) := by
    induction evs with
    | nil => intro s hs; exact hs
    | cons e rest ih => intro s hs; exact ih _ (rec_inv_step s e hs)
  exact hgen {} rec_inv_init

/-- C8: after any sequence of recording toggles and frame deliveries,
every chunk in the sample buffer was delivered by the current session's
stream: a stale frame — one whose stream was stopped and closed by the
`toggle_recording` call that ended its session (after which the
synchronous `stop()`/`close()` guarantee means the adapter delivers no
further frames from it, and the `_record_callback` liveness check aborts
frames arriving while not listening) — never appears in a subsequently
started session's buffer. -/
theorem C8_stale_frames (evs : List RecEv) :
    (rec_run evs).recording_data.all
      (fun p => p.1 == (rec_run evs).cur_gen) = true := by
  obtain ⟨_, h2⟩ := rec_inv_run evs
  rw [List.all_eq_true]
  intro p hp
  simp only [beq_iff_eq]
  exact h2 p hp

/-- C9 counterexample: the claim says the model identifier used for a
session's transcription is the value current at the moment recording
stopped and is not re-read in flight.  `_stop_recording` captures
nothing; the worker reads `model_var` itself at src/main.py line 583,
after `toggle_recording` has returned, and `_update_ui_state` leaves the
model/language comboboxes enabled meanwhile.  Here the combobox holds
"base" at the moment the stop toggle returns (time 0) and is changed to
"small" before the worker's read (time 1): the engine is loaded and
invoked with "small", not with the at-stop value "base". -/
theorem C9_counterexample :
    Event.modelLoad "small" ∈
      pipeline_run { sample_rate := 2, min_recording_duration := 1 }
        [[(0 : ℚ), 1]] (fun _ => "Autodetect")
        (fun t => if t = 0 then "base" else "small") 1 "12:00:00"
        (fun _ => none) (fun _ => Except.ok ())
        (fun _ _ _ => Except.ok "hi") ∧
    Event.modelLoad "base" ∉
      pipeline_run { sample_rate := 2, min_recording_duration := 1 }
        [[(0 : ℚ), 1]] (fun _ => "Autodetect")
        (fun t => if t = 0 then "base" else "small") 1 "12:00:00"
        (fun _ => none) (fun _ => Except.ok ())
        (fun _ _ _ => Except.ok "hi") ∧
    (fun t : Nat => if t = 0 then "base" else "small") 0 = "base" := by
  have hpipe : pipeline_run { sample_rate := 2, min_recording_duration := 1 }
      [[(0 : ℚ), 1]] (fun _ => "Autodetect")
      (fun t => if t = 0 then "base" else "small") 1 "12:00:00"
      (fun _ => none) (fun _ => Except.ok ())
      (fun _ _ _ => Except.ok "hi") =
    transcribe_audio { sample_rate := 2, min_recording_duration := 1 }
      [[(0 : ℚ), 1]] "Autodetect" "small" "12:00:00" (fun _ => none)
      (fun _ => Except.ok ()) (fun _ _ _ => Except.ok "hi") := rfl
  rw [hpipe,
    trace_success { sample_rate := 2, min_recording_duration := 1 }
      [[(0 : ℚ), 1]] "Autodetect" "small" "12:00:00" (fun _ => none)
      (fun _ => Except.ok ()) (fun _ _ _ => Except.ok "hi") "hi"
      (by decide) (by decide) (by norm_num [List.flatten])
      (by norm_num [List.flatten, peak_abs, np_abs]) rfl rfl (by decide)]
  refine ⟨by simp, by simp [stats_event], rfl⟩

/-- C9 amended: the model identifier and language selection a session's
transcription uses are the combobox values at the single instant the
worker executes its reads (src/main.py lines 578-583, after validation
and before the model load) — not the values at the moment recording
stopped.  The session's whole event trace is a function of the values at
that read instant only, so a change made after the read affects only the
next session, while a change between stop and read does affect the
in-flight session. -/
theorem C9_amended_read_time (cfg : TranscriberConfig)
    (data : List (List ℚ)) (lv lv' mv mv' : Nat → String) (t_read : Nat)
    (ts : String) (langs : String → Option String)
    (lm : String → Except String Unit)
    (eng : List ℚ → String → Option String → Except String String)
    (hl : lv t_read = lv' t_read) (hm : mv t_read = mv' t_read) :
    pipeline_run cfg data lv mv t_read ts langs lm eng =
      pipeline_run cfg data lv' mv' t_read ts langs lm eng ∧
    pipeline_run cfg data lv mv t_read ts langs lm eng =
      transcribe_audio cfg data (lv t_read) (mv t_read) ts langs lm eng := by
  refine ⟨?_, rfl⟩
  rw [pipeline_run, pipeline_run, hl, hm]

/-- Witness for the amended C9: two selection histories that differ
before the read instant but agree at it produce identical session
traces. -/
theorem C9_amended_read_time_witness :
    pipeline_run {} [[(1 : ℚ)]] (fun _ => "Autodetect") (fun _ => "base") 1
        "12:00:00" (fun _ => none) (fun _ => Except.ok ())
        (fun _ _ _ => Except.ok "hi") =
      pipeline_run {} [[(1 : ℚ)]]
        (fun t => if t = 0 then "French" else "Autodetect")
        (fun t => if t = 0 then "small" else "base") 1 "12:00:00"
        (fun _ => none) (fun _ => Except.ok ())
        (fun _ _ _ => Except.ok "hi") :=
  (C9_amended_read_time {} [[(1 : ℚ)]] (fun _ => "Autodetect")
    (fun t => if t = 0 then "French" else "Autodetect") (fun _ => "base")
    (fun t => if t = 0 then "small" else "base") 1 "12:00:00" (fun _ => none)
    (fun _ => Except.ok ()) (fun _ _ _ => Except.ok "hi") rfl rfl).1
